import Mathlib

/-!
Verification development for the `monarch-automation` repository.

The repository ships two Node.js skill wrappers:

* `skills/monarch-report/impl.js` — resolves a `threshold` parameter from
  the `THRESHOLD` environment variable / `argv[2]` / default `"50"`, locates
  a Python 3 interpreter on PATH, shells out to `over_budget_report.py`
  with a 30 s timeout and returns the parsed JSON, converting failures into
  JS `Error` values (optionally carrying a structured `payload`).
* `skills/monarch-transactions/impl.js` — same shape for
  `category_transactions.py`, with a required `category` parameter
  (from `CATEGORY` / `argv[2]`), an optional `month` (`MONTH` / `argv[3]`),
  and a project-venv preference in Python detection.

This file shallowly embeds both wrappers.  Effects are made explicit:

* the execution environment (env vars, argv, filesystem probes, the
  behaviour of every spawned command) is a `World` record;
* `run` returns the JS result (`Except JsError Json`) together with the
  list of subprocess invocations it performed, each with the timeout
  option it was given;
* the JS builtin `JSON.parse` is modelled by an executable JSON parser
  `parseJson` (strict JSON grammar; numbers are kept as their validated
  lexeme since no numeric computation is performed on them by the code).

JS string truthiness (`""` falsy, everything else truthy) is modelled by
representing absent environment variables / argv entries as `""`: the code
only ever tests these strings with `||`, for which `undefined` and `""`
behave identically.
-/

/-- A JSON value as produced by `JSON.parse`.  Numbers are kept as their
source lexeme (already validated against the JSON number grammar); the
wrappers never compute with them.  Objects keep every key/value pair in
source order; lookup takes the last binding, matching the JS semantics of
duplicate keys in `JSON.parse`. -/
inductive Json where
  | null
  | bool (b : Bool)
  | num (lexeme : String)
  | str (s : String)
  | arr (elems : List Json)
  | obj (fields : List (String × Json))

/-- JSON insignificant whitespace. -/
def jsonWs (c : Char) : Bool := c = ' ' || c = '\t' || c = '\n' || c = '\r'

/-- Drop leading JSON whitespace. -/
def skipWs : List Char → List Char
  | [] => []
  | c :: cs => if jsonWs c then skipWs cs else c :: cs

/-- Value of one hexadecimal digit. -/
def hexVal (c : Char) : Option Nat :=
  if '0' ≤ c ∧ c ≤ '9' then some (c.toNat - '0'.toNat)
  else if 'a' ≤ c ∧ c ≤ 'f' then some (c.toNat - 'a'.toNat + 10)
  else if 'A' ≤ c ∧ c ≤ 'F' then some (c.toNat - 'A'.toNat + 10)
  else none

/-- Turn a code point into a `Char`; code points that are not Unicode
scalar values (lone surrogates, which JS strings tolerate but Lean `Char`
cannot hold) are mapped to U+FFFD. -/
def scalarChar (n : Nat) : Char :=
  if n < 0xd800 ∨ (0xe000 ≤ n ∧ n < 0x110000) then Char.ofNat n else '�'

/-- Parse the body of a JSON string (the opening quote already consumed),
decoding escapes; returns the string and the rest of the input. -/
def pStr : Nat → List Char → List Char → Option (String × List Char)
  | 0, _, _ => none
  | _ + 1, [], _ => none
  | fuel + 1, c :: cs, acc =>
    if c = '\"' then some (String.mk acc.reverse, cs)
    else if c = '\\' then
      match cs with
      | [] => none
      | e :: cs2 =>
        if e = '\"' then pStr fuel cs2 ('\"' :: acc)
        else if e = '\\' then pStr fuel cs2 ('\\' :: acc)
        else if e = '/' then pStr fuel cs2 ('/' :: acc)
        else if e = 'b' then pStr fuel cs2 ('\x08' :: acc)
        else if e = 'f' then pStr fuel cs2 ('\x0c' :: acc)
        else if e = 'n' then pStr fuel cs2 ('\n' :: acc)
        else if e = 'r' then pStr fuel cs2 ('\x0d' :: acc)
        else if e = 't' then pStr fuel cs2 ('\t' :: acc)
        else if e = 'u' then
          match cs2 with
          | h1 :: h2 :: h3 :: h4 :: cs3 =>
            match hexVal h1, hexVal h2, hexVal h3, hexVal h4 with
            | some a, some b, some c2, some d =>
              let n := ((a * 16 + b) * 16 + c2) * 16 + d
              if 0xd800 ≤ n ∧ n ≤ 0xdbff then
                match cs3 with
                | '\\' :: 'u' :: g1 :: g2 :: g3 :: g4 :: cs4 =>
                  match hexVal g1, hexVal g2, hexVal g3, hexVal g4 with
                  | some a2, some b2, some c3, some d2 =>
                    let m := ((a2 * 16 + b2) * 16 + c3) * 16 + d2
                    if 0xdc00 ≤ m ∧ m ≤ 0xdfff then
                      pStr fuel cs4
                        (scalarChar (0x10000 + (n - 0xd800) * 0x400 + (m - 0xdc00)) :: acc)
                    else pStr fuel cs3 (scalarChar n :: acc)
                  | _, _, _, _ => pStr fuel cs3 (scalarChar n :: acc)
                | _ => pStr fuel cs3 (scalarChar n :: acc)
              else pStr fuel cs3 (scalarChar n :: acc)
            | _, _, _, _ => none
          | _ => none
        else none
    else if c.toNat < 0x20 then none
    else pStr fuel cs (c :: acc)

/-- Split off a maximal run of decimal digits. -/
def digitSpan : List Char → List Char × List Char
  | [] => ([], [])
  | c :: cs =>
    if c.isDigit then
      let (d, r) := digitSpan cs
      (c :: d, r)
    else ([], c :: cs)

/-- Parse an optional exponent part, finishing a number lexeme. -/
def pExpPart (acc : List Char) (cs : List Char) : Option (String × List Char) :=
  match cs with
  | e :: rest =>
    if e = 'e' ∨ e = 'E' then
      let (sgn, rest2) :=
        match rest with
        | '+' :: r => (['+'], r)
        | '-' :: r => (['-'], r)
        | _ => (([] : List Char), rest)
      match rest2 with
      | d :: r2 =>
        if d.isDigit then
          let (ds, r3) := digitSpan r2
          some (String.mk (acc ++ e :: (sgn ++ d :: ds)), r3)
        else none
      | [] => none
    else some (String.mk acc, e :: rest)
  | [] => some (String.mk acc, [])

/-- Parse an optional fraction part followed by an optional exponent. -/
def pFracPart (acc : List Char) (cs : List Char) : Option (String × List Char) :=
  match cs with
  | '.' :: rest =>
    match rest with
    | d :: r =>
      if d.isDigit then
        let (ds, r2) := digitSpan r
        pExpPart (acc ++ '.' :: d :: ds) r2
      else none
    | [] => none
  | _ => pExpPart acc cs

/-- Parse a JSON number lexeme (strict grammar: no leading zeros, no bare
dot), returning the lexeme and the rest of the input. -/
def pNum (cs0 : List Char) : Option (String × List Char) :=
  let (sign, cs1) :=
    match cs0 with
    | '-' :: rest => ((['-'] : List Char), rest)
    | _ => ([], cs0)
  match cs1 with
  | [] => none
  | c :: rest =>
    if c = '0' then pFracPart (sign ++ ['0']) rest
    else if c.isDigit then
      let (d, r) := digitSpan rest
      pFracPart (sign ++ c :: d) r
    else none

mutual

/-- Parse one JSON value (fuel-indexed; the fuel strictly exceeds the
number of values in any input it is run on, see `parseJson`). -/
def pVal : Nat → List Char → Option (Json × List Char)
  | 0, _ => none
  | fuel + 1, cs0 =>
    match skipWs cs0 with
    | 'n' :: 'u' :: 'l' :: 'l' :: rest => some (.null, rest)
    | 't' :: 'r' :: 'u' :: 'e' :: rest => some (.bool true, rest)
    | 'f' :: 'a' :: 'l' :: 's' :: 'e' :: rest => some (.bool false, rest)
    | '\"' :: rest => (pStr (rest.length + 1) rest []).map (fun p => (.str p.1, p.2))
    | '[' :: rest =>
      match skipWs rest with
      | ']' :: r2 => some (.arr [], r2)
      | cs2 => pArrTail fuel cs2 []
    | '\x7b' :: rest =>
      match skipWs rest with
      | '\x7d' :: r2 => some (.obj [], r2)
      | cs2 => pObjTail fuel cs2 []
    | c :: cs2 =>
      if c = '-' ∨ c.isDigit then (pNum (c :: cs2)).map (fun p => (.num p.1, p.2))
      else none
    | [] => none

/-- Parse the items of a non-empty JSON array after `[`. -/
def pArrTail : Nat → List Char → List Json → Option (Json × List Char)
  | 0, _, _ => none
  | fuel + 1, cs, acc =>
    match pVal fuel cs with
    | none => none
    | some (v, rest) =>
      match skipWs rest with
      | ',' :: r2 => pArrTail fuel r2 (v :: acc)
      | ']' :: r2 => some (.arr (v :: acc).reverse, r2)
      | _ => none

/-- Parse the members of a non-empty JSON object after the opening brace. -/
def pObjTail : Nat → List Char → List (String × Json) → Option (Json × List Char)
  | 0, _, _ => none
  | fuel + 1, cs, acc =>
    match skipWs cs with
    | '\"' :: rest =>
      match pStr (rest.length + 1) rest [] with
      | none => none
      | some (k, r1) =>
        match skipWs r1 with
        | ':' :: r2 =>
          match pVal fuel r2 with
          | none => none
          | some (v, r3) =>
            match skipWs r3 with
            | ',' :: r4 => pObjTail fuel r4 ((k, v) :: acc)
            | '\x7d' :: r4 => some (.obj ((k, v) :: acc).reverse, r4)
            | _ => none
        | _ => none
    | _ => none

end

/-- Model of the JS builtin `JSON.parse`: parses the whole string (trailing
whitespace permitted) or fails. -/
def parseJson (s : String) : Option Json :=
  match pVal (2 * s.length + 4) s.data with
  | some (j, rest) => if skipWs rest = [] then some j else none
  | none => none

/-- Lookup of an object field: the last binding for the key wins, matching
`JSON.parse` on duplicate keys. -/
def lastLookup (fields : List (String × Json)) (k : String) : Option Json :=
  match fields with
  | [] => none
  | (k2, v) :: rest =>
    match lastLookup rest k with
    | some r => some r
    | none => if k2 = k then some v else none

/-- Property access `j.k` as the wrappers use it (on a non-object it yields
`undefined`, modelled as `none`). -/
def jsGet (j : Json) (k : String) : Option Json :=
  match j with
  | .obj fields => lastLookup fields k
  | _ => none

/-- Whether a validated JSON number lexeme denotes zero: every mantissa
digit is `0` (the exponent cannot make a zero mantissa non-zero). -/
def zeroLexeme (s : String) : Bool :=
  (s.data.takeWhile (fun c => c ≠ 'e' ∧ c ≠ 'E')).all (fun c => !c.isDigit || c = '0')

/-- JS truthiness of a parsed JSON value (`null`, `false`, zero numbers and
the empty string are falsy; arrays and objects are always truthy). -/
def jsTruthy : Json → Bool
  | .null => false
  | .bool b => b
  | .num lex => !zeroLexeme lex
  | .str s => s != ""
  | .arr _ => true
  | .obj _ => true

mutual

/-- `Array.prototype.toString`: elements joined by `,`. -/
def jsJoin : List Json → String
  | [] => ""
  | [x] => jsElem x
  | x :: y :: xs => jsElem x ++ "," ++ jsJoin (y :: xs)

/-- String conversion of an array element (JS renders `null` elements as
the empty string). -/
def jsElem : Json → String
  | .null => ""
  | .bool b => cond b "true" "false"
  | .num lex => lex
  | .str s => s
  | .arr xs => jsJoin xs
  | .obj _ => "[object Object]"

end

/-- JS `String(x)` coercion applied by `new Error(x)`.  Number lexemes are
kept verbatim (an approximation of JS numeral canonicalisation; the
wrappers only reach this case for a non-string truthy `error` field). -/
def jsToString (j : Json) : String :=
  match j with
  | .null => "null"
  | j2 => jsElem j2

/-- Whitespace for JS `String.prototype.trim` (the code points the scripts
can realistically emit). -/
def jsWsChar (c : Char) : Bool :=
  c = ' ' || c = '\t' || c = '\n' || c = '\x0d' || c = '\x0b' || c = '\x0c' ||
    c = '\u00A0' || c = '\uFEFF'

/-- Drop leading JS whitespace. -/
def dropWs : List Char → List Char
  | [] => []
  | c :: cs => if jsWsChar c then dropWs cs else c :: cs

/-- JS `s.trim()`. -/
def jsTrim (s : String) : String :=
  String.mk ((dropWs (dropWs s.data).reverse).reverse)

/-- Decimal digits of a positive number, most significant first
(fuel-indexed; `fuel ≥ n` suffices). -/
def natDigitsAux : Nat → Nat → List Char
  | 0, _ => []
  | fuel + 1, n =>
    if n = 0 then []
    else natDigitsAux fuel (n / 10) ++ [Char.ofNat ('0'.toNat + n % 10)]

/-- Decimal rendering of a `Nat` (JS template interpolation of an exit
status). -/
def natToString (n : Nat) : String :=
  if n = 0 then "0" else String.mk (natDigitsAux (n + 1) n)

/-- JS `s.slice(0, n)` for the prefix case used by the wrappers. -/
def strTake (s : String) (n : Nat) : String := String.mk (s.data.take n)

/-- Outcome of one spawned command, as observed through `execSync`:
`exitCode = none` models a process killed by a signal (then the JS error's
`status` is `null`, e.g. after the timeout fires). -/
structure ExecOutcome where
  exitCode : Option Nat
  stdout : String
  stderr : String
  timedOut : Bool

/-- Whether `execSync` throws for this outcome (non-zero exit, killed by
signal, or timeout). -/
def execThrew (r : ExecOutcome) : Bool := r.timedOut || r.exitCode != some 0

/-- One subprocess invocation performed by a wrapper, with the `timeout`
option (milliseconds) it passed to `execSync`. -/
structure ExecCall where
  command : String
  timeoutMs : Option Nat
deriving DecidableEq

/-- The execution environment of one wrapper invocation: the environment
variables and argv entries the wrappers read (with `""` standing for an
unset value, which the code's `||` tests cannot distinguish from one), the
resolved project root, and oracles for `fs.existsSync` and for the outcome
of each spawned command line. -/
structure World where
  projectRoot : String
  envCATEGORY : String
  envMONTH : String
  envTHRESHOLD : String
  argv2 : String
  argv3 : String
  fsExists : String → Bool
  exec : String → ExecOutcome

/-- A thrown JS `Error`: its `message`, and the structured `payload`
property the wrappers attach when the failing script emitted JSON. -/
structure JsError where
  message : String
  payload : Option Json

/-- JS string interpolation of `err.status` (`null` when the process was
killed by a signal). -/
def statusString : Option Nat → String
  | some n => natToString n
  | none => "null"

/-- JS `a || b` on strings: `a` unless it is empty (falsy). -/
def jsOr (a b : String) : String := if a = "" then b else a

/-- The default message when a failing script's JSON payload has no truthy
`error` field. -/
def defaultNonZeroMsg : String := "Script exited with non-zero status"

/-- Message of the error wrapping a parsed failure payload:
`payload.error || "Script exited with non-zero status"` coerced by
`new Error`. -/
def payloadMessage (j : Json) : String :=
  match jsGet j "error" with
  | some v => if jsTruthy v then jsToString v else defaultNonZeroMsg
  | none => defaultNonZeroMsg

/-- Fallback message when a failing script left no usable JSON on stdout:
script name, exit status, and stderr (or an explicit note). -/
def failMessage (script : String) (r : ExecOutcome) : String :=
  script ++ " failed (exit " ++ statusString r.exitCode ++ ").\n" ++
    (if jsTrim r.stderr = "" then "No stderr output." else jsTrim r.stderr)

/-- Message when a zero-exit script's stdout is not JSON. -/
def parseFailMessage (script : String) (stdout : String) : String :=
  "Failed to parse JSON from " ++ script ++ ".\nRaw output: " ++ strTake stdout 500

/-- The part of both wrappers' `run()` after Python detection: spawn the
command; on success parse trimmed stdout as JSON (a parse failure is its
own error); on a throw, first try to wrap a JSON payload found on stdout
(rethrown only when the payload is truthy — a falsy payload, like the JS
`null` whose property access raises `TypeError`, falls through), otherwise
fall back to the exit-status/stderr message. -/
def execAndParse (script : String) (command : String) (w : World) : Except JsError Json :=
  let r := w.exec command
  if execThrew r then
    let raw := jsTrim r.stdout
    if raw = "" then .error ⟨failMessage script r, none⟩
    else
      match parseJson raw with
      | some j =>
        if jsTruthy j then .error ⟨payloadMessage j, some j⟩
        else .error ⟨failMessage script r, none⟩
      | none => .error ⟨failMessage script r, none⟩
  else
    match parseJson (jsTrim r.stdout) with
    | some j => .ok j
    | none => .error ⟨parseFailMessage script r.stdout, none⟩

/-- Does `pat` start `cs`? -/
def leadsWith : List Char → List Char → Bool
  | [], _ => true
  | _ :: _, [] => false
  | p :: ps, c :: cs => p = c && leadsWith ps cs

/-- Does `cs` contain `pat` as a contiguous run? -/
def hasSub (pat : List Char) : List Char → Bool
  | [] => leadsWith pat []
  | c :: cs => leadsWith pat (c :: cs) || hasSub pat cs

/-- JS `s.includes(pat)`. -/
def strContains (s pat : String) : Bool := hasSub pat.data s.data

/-- A `candidate --version` probe accepts the candidate when `execSync`
returned normally and its stdout contains `"Python 3"`. -/
def probeOk (r : ExecOutcome) : Bool := !execThrew r && strContains r.stdout "Python 3"

namespace Report

/-- `SCRIPT_PATH` of the report wrapper (POSIX join). -/
def scriptPath (w : World) : String := w.projectRoot ++ "/over_budget_report.py"

/-- `SESSION_PATH` of the report wrapper. -/
def sessionPath (w : World) : String := w.projectRoot ++ "/session.json"

/-- `const threshold = process.env.THRESHOLD || process.argv[2] || "50";` -/
def threshold (w : World) : String := jsOr w.envTHRESHOLD (jsOr w.argv2 "50")

/-- The report wrapper's Python-not-found message. -/
def pythonMissingMsg : String :=
  "Python 3 is not available on PATH. Install Python 3 and ensure it is accessible as \x27python3\x27 or \x27python\x27."

/-- `findPython()` of the report wrapper: try `python3` then `python` on
PATH, accepting the first whose `--version` output names Python 3; throw
otherwise.  Also returns the probes it spawned. -/
def findPython (w : World) : Except JsError String × List ExecCall :=
  if probeOk (w.exec "python3 --version") then
    (.ok "python3", [⟨"python3 --version", none⟩])
  else if probeOk (w.exec "python --version") then
    (.ok "python", [⟨"python3 --version", none⟩, ⟨"python --version", none⟩])
  else
    (.error ⟨pythonMissingMsg, none⟩,
      [⟨"python3 --version", none⟩, ⟨"python --version", none⟩])

/-- The command line the report wrapper builds (script and session paths
quoted, threshold spliced verbatim). -/
def command (w : World) (python : String) : String :=
  String.intercalate " "
    [python, "\"" ++ scriptPath w ++ "\"", "--json", "--threshold", threshold w,
      "--session", "\"" ++ sessionPath w ++ "\""]

/-- `run()` of `skills/monarch-report/impl.js`, returning the JS result and
the subprocess invocations performed. -/
def run (w : World) : Except JsError Json × List ExecCall :=
  match findPython w with
  | (.error e, tr) => (.error e, tr)
  | (.ok python, tr) =>
    (execAndParse "over_budget_report.py" (command w python) w,
      tr ++ [⟨command w python, some 30000⟩])

end Report

namespace Transactions

/-- `SCRIPT_PATH` of the transactions wrapper. -/
def scriptPath (w : World) : String := w.projectRoot ++ "/category_transactions.py"

/-- `SESSION_PATH` of the transactions wrapper. -/
def sessionPath (w : World) : String := w.projectRoot ++ "/session.json"

/-- `const category = process.env.CATEGORY || process.argv[2] || "";` -/
def category (w : World) : String := jsOr w.envCATEGORY (jsOr w.argv2 "")

/-- `const month = process.env.MONTH || process.argv[3] || "";` -/
def month (w : World) : String := jsOr w.envMONTH (jsOr w.argv3 "")

/-- First venv interpreter candidate (POSIX layout). -/
def venvPython1 (w : World) : String := w.projectRoot ++ "/.venv/bin/python"

/-- Second venv interpreter candidate (Windows layout; the separator is
modelled as POSIX). -/
def venvPython2 (w : World) : String := w.projectRoot ++ "/.venv/Scripts/python"

/-- The transactions wrapper's Python-not-found message. -/
def pythonMissingMsg : String :=
  "Python 3 not found. Create a venv at .venv/ or install Python 3 on PATH."

/-- The transactions wrapper's missing-category message. -/
def noCategoryMsg : String :=
  "No category specified. Pass it via the CATEGORY env var or as argv[2].\nExample: node impl.js \"Dining Out\""

/-- `findPython()` of the transactions wrapper: prefer the project venv
(no subprocess needed), then probe `python3` / `python` on PATH. -/
def findPython (w : World) : Except JsError String × List ExecCall :=
  if w.fsExists (venvPython1 w) then (.ok (venvPython1 w), [])
  else if w.fsExists (venvPython2 w) then (.ok (venvPython2 w), [])
  else if probeOk (w.exec "python3 --version") then
    (.ok "python3", [⟨"python3 --version", none⟩])
  else if probeOk (w.exec "python --version") then
    (.ok "python", [⟨"python3 --version", none⟩, ⟨"python --version", none⟩])
  else
    (.error ⟨pythonMissingMsg, none⟩,
      [⟨"python3 --version", none⟩, ⟨"python --version", none⟩])

/-- The command line the transactions wrapper builds (script, category and
session quoted; `--month` appended only when `month` is non-empty). -/
def command (w : World) (python : String) : String :=
  String.intercalate " "
    ([python, "\"" ++ scriptPath w ++ "\"", "--json", "--category",
        "\"" ++ category w ++ "\"", "--session", "\"" ++ sessionPath w ++ "\""] ++
      (if month w ≠ "" then ["--month", month w] else []))

/-- `run()` of `skills/monarch-transactions/impl.js`: reject a missing
category before Python detection, then proceed as the report wrapper does. -/
def run (w : World) : Except JsError Json × List ExecCall :=
  if category w = "" then (.error ⟨noCategoryMsg, none⟩, [])
  else
    match findPython w with
    | (.error e, tr) => (.error e, tr)
    | (.ok python, tr) =>
      (execAndParse "category_transactions.py" (command w python) w,
        tr ++ [⟨command w python, some 30000⟩])

end Transactions

/-- Modelled from the spec: `over_budget_report.py` is not part of the
shipped sources, so its `BudgetCategory` input shape follows §3 of the
spec; amounts are integer cents, per the spec's fixed-point instruction. -/
structure BudgetCategory where
  name : String
  group : String
  planned : Int
  actual : Int
deriving DecidableEq

/-- Modelled from the spec: one row of the over-budget report (§3). -/
structure OverRow where
  name : String
  group : String
  planned : Int
  actual : Int
  overage : Int
deriving DecidableEq

/-- Modelled from the spec: the computed part of an `OverBudgetReport`
(§3); `month` and `generated_at` are boundary-supplied metadata with no
logic and are omitted. -/
structure OverBudgetReport where
  entries : List OverRow
  total_overage : Int
deriving DecidableEq

/-- Derived field `overage = actual - planned` (§3). -/
def overage (c : BudgetCategory) : Int := c.actual - c.planned

/-- The report row derived from a category. -/
def toRow (c : BudgetCategory) : OverRow :=
  ⟨c.name, c.group, c.planned, c.actual, overage c⟩

/-- Insert a row into a list sorted by `overage` descending (stable: an
equal row goes after the ones already present). -/
def insertByOverage (r : OverRow) : List OverRow → List OverRow
  | [] => [r]
  | x :: xs => if x.overage < r.overage then r :: x :: xs else x :: insertByOverage r xs

/-- Stable insertion sort by `overage` descending. -/
def sortByOverageDesc : List OverRow → List OverRow
  | [] => []
  | x :: xs => insertByOverage x (sortByOverageDesc xs)

/-- Modelled from the spec: the missing `over_budget_report.py` analyzer
`analyze(categories, threshold)` (§4.3) — keep categories with
`actual - planned > threshold` strictly, sort by overage descending, and
total the kept overages. -/
def analyze (cats : List BudgetCategory) (threshold : Int) : OverBudgetReport :=
  let kept := cats.filter (fun c => threshold < overage c)
  let sorted := sortByOverageDesc (kept.map toRow)
  ⟨sorted, (sorted.map OverRow.overage).sum⟩

theorem mem_insertByOverage {r a : OverRow} {l : List OverRow} :
    a ∈ insertByOverage r l ↔ a = r ∨ a ∈ l := by
  induction l with
  | nil => simp [insertByOverage]
  | cons x xs ih =>
    by_cases h : x.overage < r.overage
    · simp [insertByOverage, h]
    · simp [insertByOverage, h, ih]
      tauto

theorem mem_sortByOverageDesc {a : OverRow} {l : List OverRow} :
    a ∈ sortByOverageDesc l ↔ a ∈ l := by
  induction l with
  | nil => simp [sortByOverageDesc]
  | cons x xs ih => simp [sortByOverageDesc, mem_insertByOverage, ih]

theorem parseJson_empty : parseJson "" = none := rfl

theorem execAndParse_ok (script cmd : String) (w : World) (j : Json)
    (h1 : execThrew (w.exec cmd) = false)
    (h2 : parseJson (jsTrim (w.exec cmd).stdout) = some j) :
    execAndParse script cmd w = .ok j := by
  simp [execAndParse, h1, h2]

theorem execAndParse_parseFail (script cmd : String) (w : World)
    (h1 : execThrew (w.exec cmd) = false)
    (h2 : parseJson (jsTrim (w.exec cmd).stdout) = none) :
    execAndParse script cmd w = .error ⟨parseFailMessage script (w.exec cmd).stdout, none⟩ := by
  simp [execAndParse, h1, h2]

theorem execAndParse_fallback (script cmd : String) (w : World)
    (h1 : execThrew (w.exec cmd) = true)
    (h2 : jsTrim (w.exec cmd).stdout = "" ∨ parseJson (jsTrim (w.exec cmd).stdout) = none) :
    execAndParse script cmd w = .error ⟨failMessage script (w.exec cmd), none⟩ := by
  rcases h2 with h2 | h2
  · simp [execAndParse, h1, h2]
  · by_cases hr : jsTrim (w.exec cmd).stdout = ""
    · simp [execAndParse, h1, hr]
    · simp [execAndParse, h1, hr, h2]

theorem execAndParse_payload (script cmd : String) (w : World) (j : Json)
    (h1 : execThrew (w.exec cmd) = true)
    (h2 : parseJson (jsTrim (w.exec cmd).stdout) = some j)
    (h3 : jsTruthy j = true) :
    execAndParse script cmd w = .error ⟨payloadMessage j, some j⟩ := by
  have hr : jsTrim (w.exec cmd).stdout ≠ "" := by
    intro h
    rw [h, parseJson_empty] at h2
    exact Option.noConfusion h2
  simp [execAndParse, h1, hr, h2, h3]

theorem execAndParse_threw (script cmd : String) (w : World)
    (h1 : execThrew (w.exec cmd) = true) :
    ∃ e, execAndParse script cmd w = .error e := by
  by_cases hr : jsTrim (w.exec cmd).stdout = ""
  · exact ⟨⟨failMessage script (w.exec cmd), none⟩, by simp [execAndParse, h1, hr]⟩
  · match h2 : parseJson (jsTrim (w.exec cmd).stdout) with
    | some j =>
      by_cases h3 : jsTruthy j = true
      · exact ⟨_, execAndParse_payload script cmd w j h1 h2 h3⟩
      · exact ⟨⟨failMessage script (w.exec cmd), none⟩,
          by simp [execAndParse, h1, hr, h2, Bool.eq_false_iff.2 h3]⟩
    | none => exact ⟨_, execAndParse_fallback script cmd w h1 (Or.inr h2)⟩

theorem report_run_of_findPython (w : World) (python : String) (tr : List ExecCall)
    (h : Report.findPython w = (.ok python, tr)) :
    Report.run w = (execAndParse "over_budget_report.py" (Report.command w python) w,
      tr ++ [⟨Report.command w python, some 30000⟩]) := by
  simp [Report.run, h]

theorem transactions_run_of_findPython (w : World) (python : String) (tr : List ExecCall)
    (hcat : Transactions.category w ≠ "")
    (h : Transactions.findPython w = (.ok python, tr)) :
    Transactions.run w = (execAndParse "category_transactions.py" (Transactions.command w python) w,
      tr ++ [⟨Transactions.command w python, some 30000⟩]) := by
  simp [Transactions.run, hcat, h]

/-- C1: for every invocation of `run()` in either wrapper where the script
exits with a non-zero status (or is killed) after writing a JSON error
object to stdout, `run()` parses that stdout JSON and raises an error that
carries the parsed payload, with the message taken from the payload's
`error` field when it is present as a non-empty string — the
success-channel content is surfaced despite the failure exit status. -/
theorem c1_error_payload_surfaced (w : World) (fields : List (String × Json)) (s : String)
    (hs : s ≠ "") (hfield : lastLookup fields "error" = some (.str s)) :
    (∀ python tr, Report.findPython w = (.ok python, tr) →
      execThrew (w.exec (Report.command w python)) = true →
      parseJson (jsTrim (w.exec (Report.command w python)).stdout) = some (.obj fields) →
      (Report.run w).fst = .error ⟨s, some (.obj fields)⟩) ∧
    (∀ python tr, Transactions.category w ≠ "" →
      Transactions.findPython w = (.ok python, tr) →
      execThrew (w.exec (Transactions.command w python)) = true →
      parseJson (jsTrim (w.exec (Transactions.command w python)).stdout) = some (.obj fields) →
      (Transactions.run w).fst = .error ⟨s, some (.obj fields)⟩) := by
  have hmsg : payloadMessage (.obj fields) = s := by
    simp [payloadMessage, jsGet, hfield, jsTruthy, jsToString, jsElem, hs]
  constructor
  · intro python tr hf hthrew hparse
    rw [report_run_of_findPython w python tr hf]
    simpa [hmsg] using
      execAndParse_payload "over_budget_report.py" (Report.command w python) w
        (.obj fields) hthrew hparse rfl
  · intro python tr hcat hf hthrew hparse
    rw [transactions_run_of_findPython w python tr hcat hf]
    simpa [hmsg] using
      execAndParse_payload "category_transactions.py" (Transactions.command w python) w
        (.obj fields) hthrew hparse rfl

/-- C2 (counterexample): with `THRESHOLD=100` and argv[2] `200` the report
wrapper resolves the threshold to the environment value `100`, not the
positional argument `200` — the claimed argv-over-environment precedence
fails. -/
theorem c2_counterexample :
    let w : World := ⟨"/mm", "", "", "100", "200", "", fun _ => false,
      fun _ => ⟨some 0, "", "", false⟩⟩
    w.envTHRESHOLD = "100" ∧ w.argv2 = "200" ∧
      Report.threshold w = "100" ∧ Report.threshold w ≠ "200" := by
  exact ⟨rfl, rfl, rfl, by decide⟩

/-- C2 (amended): for the threshold, category and month parameters the
environment variable takes precedence over the positional argument, which
takes precedence over the default (`"50"` for the threshold, empty for
category and month). -/
theorem c2_env_precedes_argv (w : World) :
    (w.envTHRESHOLD ≠ "" → Report.threshold w = w.envTHRESHOLD) ∧
    (w.envTHRESHOLD = "" → w.argv2 ≠ "" → Report.threshold w = w.argv2) ∧
    (w.envTHRESHOLD = "" → w.argv2 = "" → Report.threshold w = "50") ∧
    (w.envCATEGORY ≠ "" → Transactions.category w = w.envCATEGORY) ∧
    (w.envCATEGORY = "" → w.argv2 ≠ "" → Transactions.category w = w.argv2) ∧
    (w.envCATEGORY = "" → w.argv2 = "" → Transactions.category w = "") ∧
    (w.envMONTH ≠ "" → Transactions.month w = w.envMONTH) ∧
    (w.envMONTH = "" → w.argv3 ≠ "" → Transactions.month w = w.argv3) ∧
    (w.envMONTH = "" → w.argv3 = "" → Transactions.month w = "") := by
  unfold Report.threshold Transactions.category Transactions.month jsOr
  exact ⟨fun h => by simp [h], fun h1 h2 => by simp [h1, h2], fun h1 h2 => by simp [h1, h2],
    fun h => by simp [h], fun h1 h2 => by simp [h1, h2], fun h1 h2 => by simp [h1, h2],
    fun h => by simp [h], fun h1 h2 => by simp [h1, h2], fun h1 h2 => by simp [h1, h2]⟩

/-- C3: the report wrapper performs no threshold validation — with
`THRESHOLD=-5` it builds the script command embedding `-5` and spawns it,
returning whatever the script produced, instead of surfacing an
invalid-argument error at the boundary. -/
theorem c3_negative_threshold_forwarded :
    let w : World := ⟨"/mm", "", "", "-5", "", "", fun _ => false,
      fun c => if c = "python3 --version" then ⟨some 0, "Python 3.12.1", "", false⟩
        else ⟨some 0, "\x7b\"month\":\"2026-02\"\x7d", "", false⟩⟩
    (Report.run w).snd = [⟨"python3 --version", none⟩,
      ⟨"python3 \"/mm/over_budget_report.py\" --json --threshold -5 --session \"/mm/session.json\"",
        some 30000⟩] ∧
    (Report.run w).fst = .ok (.obj [("month", .str "2026-02")]) := by
  exact ⟨rfl, rfl⟩

/-- C4: when no category arrives through the `CATEGORY` environment
variable or argv[2], the transactions wrapper's `run()` fails with its
no-category error before Python detection, with an empty subprocess
trace. -/
theorem c4_category_required (w : World)
    (henv : w.envCATEGORY = "") (harg : w.argv2 = "") :
    Transactions.run w = (.error ⟨Transactions.noCategoryMsg, none⟩, []) := by
  have hc : Transactions.category w = "" := by
    simp [Transactions.category, jsOr, henv, harg]
  simp [Transactions.run, hc]

/-- C5: each wrapper invokes its provider-calling script exactly once,
with the 30000 ms `execSync` timeout option, and when that invocation
times out `run()` returns an error rather than a success value. -/
theorem c5_timeout_bound (w : World) :
    (∀ python tr, Report.findPython w = (.ok python, tr) →
      (Report.run w).snd = tr ++ [⟨Report.command w python, some 30000⟩] ∧
      ((w.exec (Report.command w python)).timedOut = true →
        ∃ e, (Report.run w).fst = .error e)) ∧
    (∀ python tr, Transactions.category w ≠ "" →
      Transactions.findPython w = (.ok python, tr) →
      (Transactions.run w).snd = tr ++ [⟨Transactions.command w python, some 30000⟩] ∧
      ((w.exec (Transactions.command w python)).timedOut = true →
        ∃ e, (Transactions.run w).fst = .error e)) := by
  constructor
  · intro python tr hf
    rw [report_run_of_findPython w python tr hf]
    exact ⟨rfl, fun ht =>
      execAndParse_threw "over_budget_report.py" (Report.command w python) w
        (by simp [execThrew, ht])⟩
  · intro python tr hcat hf
    rw [transactions_run_of_findPython w python tr hcat hf]
    exact ⟨rfl, fun ht =>
      execAndParse_threw "category_transactions.py" (Transactions.command w python) w
        (by simp [execThrew, ht])⟩

/-- C6: when no Python 3 runtime is available (no venv interpreter for the
transactions wrapper, and neither `python3` nor `python` probes as Python
3), both wrappers fail with their dependency-missing error having spawned
only the two version probes — the report/transaction script is never
invoked. -/
theorem c6_dependency_missing (w : World)
    (h3 : probeOk (w.exec "python3 --version") = false)
    (h2 : probeOk (w.exec "python --version") = false) :
    Report.run w = (.error ⟨Report.pythonMissingMsg, none⟩,
      [⟨"python3 --version", none⟩, ⟨"python --version", none⟩]) ∧
    (Transactions.category w ≠ "" →
      w.fsExists (Transactions.venvPython1 w) = false →
      w.fsExists (Transactions.venvPython2 w) = false →
      Transactions.run w = (.error ⟨Transactions.pythonMissingMsg, none⟩,
        [⟨"python3 --version", none⟩, ⟨"python --version", none⟩])) := by
  constructor
  · simp [Report.run, Report.findPython, h3, h2]
  · intro hcat hv1 hv2
    simp [Transactions.run, Transactions.findPython, hcat, hv1, hv2, h3, h2]

/-- C7: `analyze` keeps exactly the categories whose `actual - planned`
strictly exceeds the threshold: every returned entry has
`overage > threshold`, and every input category above the threshold is
returned. -/
theorem c7_entries_exceed_threshold (cats : List BudgetCategory) (t : Int) :
    (∀ row ∈ (analyze cats t).entries, t < row.overage) ∧
    (∀ c ∈ cats, t < overage c → toRow c ∈ (analyze cats t).entries) := by
  constructor
  · intro row h
    have h2 : row ∈ (cats.filter (fun c => t < overage c)).map toRow := by
      simpa [analyze, mem_sortByOverageDesc] using h
    obtain ⟨c, hc, rfl⟩ := List.mem_map.1 h2
    have h3 := List.mem_filter.1 hc
    simpa [toRow] using of_decide_eq_true h3.2
  · intro c hc hover
    have h2 : toRow c ∈ (cats.filter (fun c => t < overage c)).map toRow :=
      List.mem_map_of_mem toRow (List.mem_filter.2 ⟨hc, decide_eq_true hover⟩)
    simpa [analyze, mem_sortByOverageDesc] using h2

/-- C8: when the script exits with status 0 but its stdout does not parse
as JSON, either wrapper's `run()` raises the distinct parse-failure error,
whose message identifies the raw output, with no payload — no value is
returned to the caller. -/
theorem c8_parse_failure_distinct (w : World) :
    (∀ python tr, Report.findPython w = (.ok python, tr) →
      execThrew (w.exec (Report.command w python)) = false →
      parseJson (jsTrim (w.exec (Report.command w python)).stdout) = none →
      (Report.run w).fst = .error
        ⟨parseFailMessage "over_budget_report.py" (w.exec (Report.command w python)).stdout,
          none⟩) ∧
    (∀ python tr, Transactions.category w ≠ "" →
      Transactions.findPython w = (.ok python, tr) →
      execThrew (w.exec (Transactions.command w python)) = false →
      parseJson (jsTrim (w.exec (Transactions.command w python)).stdout) = none →
      (Transactions.run w).fst = .error
        ⟨parseFailMessage "category_transactions.py"
            (w.exec (Transactions.command w python)).stdout,
          none⟩) := by
  constructor
  · intro python tr hf hok hparse
    rw [report_run_of_findPython w python tr hf]
    exact execAndParse_parseFail "over_budget_report.py" (Report.command w python) w hok hparse
  · intro python tr hcat hf hok hparse
    rw [transactions_run_of_findPython w python tr hcat hf]
    exact execAndParse_parseFail "category_transactions.py" (Transactions.command w python) w
      hok hparse

/-- C9: when the script exits with status 0 and its trimmed stdout parses
as JSON, either wrapper's `run()` returns exactly the parsed value — the
wrapper is a pass-through on the success path. -/
theorem c9_success_pass_through (w : World) (j : Json) :
    (∀ python tr, Report.findPython w = (.ok python, tr) →
      execThrew (w.exec (Report.command w python)) = false →
      parseJson (jsTrim (w.exec (Report.command w python)).stdout) = some j →
      (Report.run w).fst = .ok j) ∧
    (∀ python tr, Transactions.category w ≠ "" →
      Transactions.findPython w = (.ok python, tr) →
      execThrew (w.exec (Transactions.command w python)) = false →
      parseJson (jsTrim (w.exec (Transactions.command w python)).stdout) = some j →
      (Transactions.run w).fst = .ok j) := by
  constructor
  · intro python tr hf hok hparse
    rw [report_run_of_findPython w python tr hf]
    exact execAndParse_ok "over_budget_report.py" (Report.command w python) w j hok hparse
  · intro python tr hcat hf hok hparse
    rw [transactions_run_of_findPython w python tr hcat hf]
    exact execAndParse_ok "category_transactions.py" (Transactions.command w python) w j
      hok hparse

/-- C10: when the script's `execSync` throws (non-zero exit or killed) and
its trimmed stdout is empty or not valid JSON, either wrapper's `run()`
raises an error with no structured payload whose message is built from the
script's exit status and its trimmed stderr (or the explicit note
`No stderr output.`). -/
theorem c10_fallback_no_payload (w : World) :
    (∀ python tr, Report.findPython w = (.ok python, tr) →
      execThrew (w.exec (Report.command w python)) = true →
      (jsTrim (w.exec (Report.command w python)).stdout = "" ∨
        parseJson (jsTrim (w.exec (Report.command w python)).stdout) = none) →
      (Report.run w).fst = .error
        ⟨failMessage "over_budget_report.py" (w.exec (Report.command w python)), none⟩) ∧
    (∀ python tr, Transactions.category w ≠ "" →
      Transactions.findPython w = (.ok python, tr) →
      execThrew (w.exec (Transactions.command w python)) = true →
      (jsTrim (w.exec (Transactions.command w python)).stdout = "" ∨
        parseJson (jsTrim (w.exec (Transactions.command w python)).stdout) = none) →
      (Transactions.run w).fst = .error
        ⟨failMessage "category_transactions.py" (w.exec (Transactions.command w python)),
          none⟩) := by
  constructor
  · intro python tr hf hthrew hraw
    rw [report_run_of_findPython w python tr hf]
    exact execAndParse_fallback "over_budget_report.py" (Report.command w python) w hthrew hraw
  · intro python tr hcat hf hthrew hraw
    rw [transactions_run_of_findPython w python tr hcat hf]
    exact execAndParse_fallback "category_transactions.py" (Transactions.command w python) w
      hthrew hraw

/-- A `python3 --version` outcome accepted by the probes. -/
def okPyOutcome : ExecOutcome := ⟨some 0, "Python 3.12.1", "", false⟩

/-- World for the C1 witness: script exits 1 with a JSON error object. -/
def wc1 : World := ⟨"/mm", "Dining Out", "", "", "", "", fun _ => false,
  fun c => if c = "python3 --version" then okPyOutcome
    else ⟨some 1, "\x7b\"error\":\"boom\"\x7d", "", false⟩⟩

theorem c1_witness :
    (Report.run wc1).fst = .error ⟨"boom", some (.obj [("error", .str "boom")])⟩ ∧
    (Transactions.run wc1).fst = .error ⟨"boom", some (.obj [("error", .str "boom")])⟩ :=
  ⟨(c1_error_payload_surfaced wc1 [("error", .str "boom")] "boom" (by decide) rfl).1
      "python3" [⟨"python3 --version", none⟩] rfl rfl rfl,
    (c1_error_payload_surfaced wc1 [("error", .str "boom")] "boom" (by decide) rfl).2
      "python3" [⟨"python3 --version", none⟩] (by decide) rfl rfl rfl⟩

/-- Worlds for the C2 witness: each precedence level exercised. -/
def wc2a : World := ⟨"/mm", "", "", "100", "200", "", fun _ => false,
  fun _ => ⟨some 0, "", "", false⟩⟩

def wc2b : World := ⟨"/mm", "", "", "", "200", "", fun _ => false,
  fun _ => ⟨some 0, "", "", false⟩⟩

def wc2c : World := ⟨"/mm", "", "", "", "", "", fun _ => false,
  fun _ => ⟨some 0, "", "", false⟩⟩

theorem c2_witness :
    Report.threshold wc2a = "100" ∧ Report.threshold wc2b = "200" ∧
      Report.threshold wc2c = "50" :=
  ⟨(c2_env_precedes_argv wc2a).1 (by decide),
    (c2_env_precedes_argv wc2b).2.1 rfl (by decide),
    (c2_env_precedes_argv wc2c).2.2.1 rfl rfl⟩

/-- World for the C4 witness: neither `CATEGORY` nor argv[2] set. -/
def wc4 : World := ⟨"/mm", "", "", "", "", "", fun _ => false,
  fun _ => ⟨some 0, "", "", false⟩⟩

theorem c4_witness :
    Transactions.run wc4 = (.error ⟨Transactions.noCategoryMsg, none⟩, []) :=
  c4_category_required wc4 rfl rfl

/-- World for the C5 witness: the script invocation times out. -/
def wc5 : World := ⟨"/mm", "Dining Out", "", "", "", "", fun _ => false,
  fun c => if c = "python3 --version" then okPyOutcome else ⟨none, "", "", true⟩⟩

theorem c5_witness :
    (Report.run wc5).snd =
      [⟨"python3 --version", none⟩, ⟨Report.command wc5 "python3", some 30000⟩] ∧
    (∃ e, (Report.run wc5).fst = .error e) ∧
    (∃ e, (Transactions.run wc5).fst = .error e) :=
  ⟨((c5_timeout_bound wc5).1 "python3" [⟨"python3 --version", none⟩] rfl).1,
    ((c5_timeout_bound wc5).1 "python3" [⟨"python3 --version", none⟩] rfl).2 rfl,
    ((c5_timeout_bound wc5).2 "python3" [⟨"python3 --version", none⟩] (by decide) rfl).2 rfl⟩

/-- World for the C6 witness: every command fails, no venv. -/
def wc6 : World := ⟨"/mm", "Dining Out", "", "", "", "", fun _ => false,
  fun _ => ⟨some 127, "", "command not found", false⟩⟩

theorem c6_witness :
    Report.run wc6 = (.error ⟨Report.pythonMissingMsg, none⟩,
      [⟨"python3 --version", none⟩, ⟨"python --version", none⟩]) ∧
    Transactions.run wc6 = (.error ⟨Transactions.pythonMissingMsg, none⟩,
      [⟨"python3 --version", none⟩, ⟨"python --version", none⟩]) :=
  ⟨(c6_dependency_missing wc6 rfl rfl).1,
    (c6_dependency_missing wc6 rfl rfl).2 (by decide) rfl rfl⟩

/-- Categories for the C7 witness (spec §8, Scenario A, in cents). -/
def cats7 : List BudgetCategory :=
  [⟨"Dining Out", "Food & Drink", 20000, 31245⟩, ⟨"Rent", "Housing", 150000, 150000⟩]

theorem c7_witness :
    (5000 : Int) < (toRow ⟨"Dining Out", "Food & Drink", 20000, 31245⟩).overage ∧
    toRow ⟨"Dining Out", "Food & Drink", 20000, 31245⟩ ∈ (analyze cats7 5000).entries :=
  ⟨(c7_entries_exceed_threshold cats7 5000).1 _ (by decide),
    (c7_entries_exceed_threshold cats7 5000).2 _ (by decide) (by decide)⟩

/-- World for the C8 witness: zero exit but non-JSON stdout. -/
def wc8 : World := ⟨"/mm", "Dining Out", "", "", "", "", fun _ => false,
  fun c => if c = "python3 --version" then okPyOutcome
    else ⟨some 0, "oops not json", "", false⟩⟩

theorem c8_witness :
    (Report.run wc8).fst =
      .error ⟨parseFailMessage "over_budget_report.py" "oops not json", none⟩ ∧
    (Transactions.run wc8).fst =
      .error ⟨parseFailMessage "category_transactions.py" "oops not json", none⟩ :=
  ⟨(c8_parse_failure_distinct wc8).1 "python3" [⟨"python3 --version", none⟩] rfl rfl rfl,
    (c8_parse_failure_distinct wc8).2 "python3" [⟨"python3 --version", none⟩]
      (by decide) rfl rfl rfl⟩

/-- World for the C9 witness: zero exit with JSON stdout (padded). -/
def wc9 : World := ⟨"/mm", "Dining Out", "", "", "", "", fun _ => false,
  fun c => if c = "python3 --version" then okPyOutcome
    else ⟨some 0, " \x7b\"total\": 57.67\x7d \n", "", false⟩⟩

theorem c9_witness :
    (Report.run wc9).fst = .ok (.obj [("total", .num "57.67")]) ∧
    (Transactions.run wc9).fst = .ok (.obj [("total", .num "57.67")]) :=
  ⟨(c9_success_pass_through wc9 (.obj [("total", .num "57.67")])).1
      "python3" [⟨"python3 --version", none⟩] rfl rfl rfl,
    (c9_success_pass_through wc9 (.obj [("total", .num "57.67")])).2
      "python3" [⟨"python3 --version", none⟩] (by decide) rfl rfl rfl⟩

/-- World for the C10 witness: non-zero exit, whitespace-only stdout,
stderr text present. -/
def wc10 : World := ⟨"/mm", "Dining Out", "", "", "", "", fun _ => false,
  fun c => if c = "python3 --version" then okPyOutcome
    else ⟨some 2, "\n", "  warning: boom\n", false⟩⟩

theorem c10_witness :
    (Report.run wc10).fst =
      .error ⟨"over_budget_report.py failed (exit 2).\nwarning: boom", none⟩ ∧
    (Transactions.run wc10).fst =
      .error ⟨"category_transactions.py failed (exit 2).\nwarning: boom", none⟩ :=
  ⟨(c10_fallback_no_payload wc10).1 "python3" [⟨"python3 --version", none⟩] rfl rfl (Or.inl rfl),
    (c10_fallback_no_payload wc10).2 "python3" [⟨"python3 --version", none⟩]
      (by decide) rfl rfl (Or.inl rfl)⟩
